import Mathlib

/-!
Verification development for the Lobby/Session Coordinator of the xoback
repository.  The definitions below are a shallow embedding, translated
from `src/game/game.service.ts` and `src/game/game.gateway.ts`:

* the Redis store is modelled as a function from keys to an optional
  value paired with its absolute expiry time in milliseconds; reads at a
  given time treat expired keys as absent, mirroring lazy expiry;
* JavaScript `Map` objects (the in-process caches and in-memory maps)
  are modelled as association lists with JavaScript Map semantics:
  `set` on a fresh key appends, `set` on an existing key updates in
  place, preserving iteration order;
* JSON-serialized records stored in Redis are represented structurally
  (serialization round-trips, so this is faithful);
* all timestamps are `Nat` milliseconds since epoch.  JavaScript
  subtraction `a - b` compared with `> limit` agrees with `Nat`
  truncated subtraction: when `a < b` the JS result is negative and the
  comparison is false, and the Nat result is zero and the comparison is
  false as well.
-/

namespace Xoback

/-- Lobby status, from the `status` union in `src/game/types.ts`. -/
inductive LobbyStatus where
  | active
  | pending
  | closed
  deriving Repr, DecidableEq

/-- Lobby record, from the `Lobby` interface in `src/game/types.ts`. -/
structure Lobby where
  id : String
  creatorId : String
  createdAt : Nat
  status : LobbyStatus
  deriving Repr, DecidableEq

/-- Rate-limit entry, from the `userLobbyRequests` map value type
`{ count: number, timestamp: number }` in `game.service.ts`. -/
structure RateEntry where
  count : Nat
  timestamp : Nat
  deriving Repr, DecidableEq

/-- In-memory game session, from the `GameSession` interface in
`src/game/types.ts` (fields used by the embedded operations). -/
structure GameSession where
  id : String
  creatorId : String
  opponentId : String
  currentTurn : String
  numMoves : Nat
  pay : Bool
  startedAt : Nat
  playerTime1 : Nat
  playerTime2 : Nat
  lastMoveTime : Nat
  deriving Repr, DecidableEq

/-- Game record stored in Redis under `game:{id}`, as read and written by
`GameGateway.handleMove` (the declared `GameData` interface plus the
`creatorId`, `opponentId`, `startTime` and `numMoves` fields that the
handler and its emitters access; the JavaScript object spread in
`handleMove` preserves any field it does not overwrite). -/
structure RGame where
  creatorId : String
  opponentId : String
  currentTurn : String
  board : List String
  lastMoveTime : Nat
  startTime : Nat
  numMoves : Nat
  deriving Repr, DecidableEq

/-- Player record stored under `player:{telegramId}` by the gateway
(fields read by the reconnect path of `handleConnection`). -/
structure PlayerRec where
  lobbyId : Option String
  inviteSent : Bool
  marker : String
  deriving Repr, DecidableEq

/-- Gateway-side lobby record stored under `lobby:{id}`, from the
`LobbyData` interface in `game.gateway.ts`. -/
structure LobbyMeta where
  creatorId : String
  status : LobbyStatus
  socketId : String
  deriving Repr, DecidableEq

/-- Value stored under a Redis key.  Serialized records are represented
structurally; plain strings cover the lock sentinel, lobby-id index
values and the pending markers. -/
inductive RVal where
  | str (s : String)
  | lobby (l : Lobby)
  | game (g : RGame)
  | player (p : PlayerRec)
  | lobbyMeta (d : LobbyMeta)
  deriving Repr, DecidableEq

/-- The Redis store: each key holds an optional value together with its
absolute expiry time in milliseconds since epoch. -/
def RStore := String → Option (RVal × Nat)

/-- Read a key at time `now`: an entry whose expiry has passed is
absent, mirroring Redis lazy expiry. -/
def rlive (s : RStore) (now : Nat) (k : String) : Option RVal :=
  match s k with
  | some (v, e) => if now < e then some v else none
  | none => none

/-- Redis `SET key value EX ttl`: stores the value with absolute expiry
`now + ttlMs`. -/
def rset (s : RStore) (k : String) (v : RVal) (ttlMs now : Nat) : RStore :=
  fun k' => if k' = k then some (v, now + ttlMs) else s k'

/-- Redis `DEL key`. -/
def rdel (s : RStore) (k : String) : RStore :=
  fun k' => if k' = k then none else s k'

/-- Redis `EXPIRE key 180` as used by `GameGateway.updateTTL`: refreshes
the expiry of a live key to 180 seconds from now, and is a no-op on a
missing or expired key. -/
def rexpire (s : RStore) (now : Nat) (k : String) : RStore :=
  match s k with
  | some (v, e) =>
      if now < e then (fun k' => if k' = k then some (v, now + 180000) else s k') else s
  | none => s

/-- Redis `TTL key`, in milliseconds: remaining lifetime of the entry,
and `-2` for a missing key (the code only tests the sign). -/
def rttlMs (s : RStore) (now : Nat) (k : String) : Int :=
  match s k with
  | some (_, e) => (e : Int) - (now : Int)
  | none => -2

/-- JavaScript `Map.prototype.set`: update in place when the key is
present, append otherwise (preserving iteration order). -/
def mset {α : Type} (m : List (String × α)) (k : String) (v : α) :
    List (String × α) :=
  if (m.lookup k).isSome then
    m.map (fun p => if p.1 = k then (k, v) else p)
  else
    m ++ [(k, v)]

/-- JavaScript `Map.prototype.delete`: removes the entry stored under
the key, keeping all other entries in order. -/
def mdel {α : Type} (m : List (String × α)) (k : String) :
    List (String × α) :=
  m.filter (fun p => !(p.1 == k))

/-- Pending grace timers held in `GameGateway.reconnectTimeouts`, keyed
by telegram id: either the lobby-deletion timer or the session
disconnect-loss timer, each due 30 000 ms after the disconnect. -/
inductive TimerInfo where
  | lobbyTimer (lobbyId : String) (fireAt : Nat)
  | gameTimer (gameId : String) (fireAt : Nat)
  deriving Repr, DecidableEq

/-- Combined state of `GameService` and `GameGateway`: the in-process
caches and maps of both classes together with the single shared Redis
store. -/
structure SysState where
  activeLobbies : List (String × Lobby)
  activeSessions : List (String × GameSession)
  userLobbyRequests : List (String × RateEntry)
  redis : RStore
  clientLobbies : List (String × String)
  clientGames : List (String × String)
  connectedClients : List (String × String)
  reconnectTimeouts : List (String × TimerInfo)

/-- Empty system state over an empty store. -/
def emptyState : SysState :=
  { activeLobbies := []
    activeSessions := []
    userLobbyRequests := []
    redis := fun _ => none
    clientLobbies := []
    clientGames := []
    connectedClients := []
    reconnectTimeouts := [] }

/-- GameService.checkRateLimit, translated line by line: first request
opens a window with count 1; a request more than 60 000 ms after the
window opened resets it; otherwise a request is rejected once the count
has reached 1; otherwise the count is incremented.  Returns the boolean
result and the updated `userLobbyRequests` map. -/
def checkRateLimit (m : List (String × RateEntry)) (telegramId : String)
    (now : Nat) : Bool × List (String × RateEntry) :=
  match m.lookup telegramId with
  | none => (true, mset m telegramId ⟨1, now⟩)
  | some e =>
      if now - e.timestamp > 60000 then
        (true, mset m telegramId ⟨1, now⟩)
      else if e.count ≥ 1 then
        (false, m)
      else
        (true, mset m telegramId ⟨e.count + 1, e.timestamp⟩)

/-- Result of GameService.createLobby: the created lobby, or one of the
two thrown errors (rate limit, duplicate lobby). -/
inductive CreateLobbyResult where
  | created (l : Lobby)
  | rateLimited
  | duplicateLobby
  deriving Repr, DecidableEq

/-- GameService.createLobby: checks the rate limit, then attempts the
atomic `SET user_lobby:{creatorId} pending EX 180 NX` lock; on failure
it only reads (the existing lobby id and record) and throws the
duplicate-lobby error; on success it writes the primary lobby record
and the index in one MULTI batch (both EX 180), caches the lobby and
returns it.  `freshId` stands for the generated
`lobby_{Date.now()}_{random}` identifier. -/
def createLobby (st : SysState) (creatorId : String) (now : Nat)
    (freshId : String) : CreateLobbyResult × SysState :=
  let rl := checkRateLimit st.userLobbyRequests creatorId now
  let st1 := { st with userLobbyRequests := rl.2 }
  if rl.1 then
    match rlive st1.redis now ("user_lobby:" ++ creatorId) with
    | some _ => (.duplicateLobby, st1)
    | none =>
        let lobby : Lobby :=
          { id := freshId, creatorId := creatorId, createdAt := now
            status := .active }
        let r1 := rset st1.redis ("user_lobby:" ++ creatorId)
          (.str "pending") 180000 now
        let r2 := rset r1 freshId (.lobby lobby) 180000 now
        let r3 := rset r2 ("user_lobby:" ++ creatorId) (.str freshId)
          180000 now
        (.created lobby,
          { st1 with redis := r3
                     activeLobbies := mset st1.activeLobbies freshId lobby })
  else
    (.rateLimited, st1)

/-- GameService.getLobby: returns the cached lobby when present (without
consulting Redis); otherwise reads the primary record from Redis,
caching and returning it, and returns none when it is absent. -/
def getLobby (st : SysState) (lobbyId : String) (now : Nat) :
    Option Lobby × SysState :=
  match st.activeLobbies.lookup lobbyId with
  | some l => (some l, st)
  | none =>
      match rlive st.redis now lobbyId with
      | some (.lobby l) =>
          (some l, { st with activeLobbies := mset st.activeLobbies lobbyId l })
      | _ => (none, st)

/-- GameService.markLobbyPending: when the lobby is in the in-process
cache, flips its status to pending (mutating the cached object) and
writes, in one MULTI batch, the primary record and the creator index
(both EX 180) plus a `pending:{lobbyId}` marker with EX 30; a lobby
absent from the cache is left untouched. -/
def markLobbyPending (st : SysState) (lobbyId : String) (now : Nat) :
    SysState :=
  match st.activeLobbies.lookup lobbyId with
  | none => st
  | some l =>
      let l' := { l with status := .pending }
      let r1 := rset st.redis lobbyId (.lobby l') 180000 now
      let r2 := rset r1 ("user_lobby:" ++ l'.creatorId) (.str lobbyId)
        180000 now
      let r3 := rset r2 ("pending:" ++ lobbyId) (.str "1") 30000 now
      { st with redis := r3
                activeLobbies := mset st.activeLobbies lobbyId l' }

/-- GameService.restoreLobby: when the lobby is in the in-process cache,
flips its status back to active and rewrites the primary record and the
creator index with full TTLs.  This method is defined in the service
but never invoked by the gateway. -/
def restoreLobby (st : SysState) (lobbyId : String) (now : Nat) :
    SysState :=
  match st.activeLobbies.lookup lobbyId with
  | none => st
  | some l =>
      let l' := { l with status := .active }
      let r1 := rset st.redis lobbyId (.lobby l') 180000 now
      let r2 := rset r1 ("user_lobby:" ++ l'.creatorId) (.str lobbyId)
        180000 now
      { st with redis := r2
                activeLobbies := mset st.activeLobbies lobbyId l' }

/-- GameService.deleteLobby: when the lobby is in the in-process cache,
deletes the primary record and the creator index in one MULTI batch
(a DEL of an already-missing key only logs a warning), evicts the cache
entry and removes the creator's rate-limit entry; when the lobby is not
in the cache, the method only logs a warning and changes nothing.
Neither path throws. -/
def deleteLobby (st : SysState) (lobbyId : String) : SysState :=
  match st.activeLobbies.lookup lobbyId with
  | none => st
  | some l =>
      let r1 := rdel st.redis lobbyId
      let r2 := rdel r1 ("user_lobby:" ++ l.creatorId)
      { st with redis := r2
                activeLobbies := mdel st.activeLobbies lobbyId
                userLobbyRequests := mdel st.userLobbyRequests l.creatorId }

/-- GameService.getGameSession: a pure lookup in the in-memory
`activeSessions` map, with no backing store read. -/
def getGameSession (st : SysState) (gameId : String) : Option GameSession :=
  st.activeSessions.lookup gameId

/-- GameService.findLobbyByCreator: scans the in-process cache for any
lobby of the creator and returns the first match without consulting
Redis; on a cache miss it follows the `user_lobby:{creatorId}` index to
the primary record, deleting the stale index and returning none when
the record is missing; when the record is present it checks the
remaining TTL (nonpositive means invalid, triggering deleteLobby),
caches the lobby and returns it.  Index keys always hold plain lobby-id
strings. -/
def findLobbyByCreator (st : SysState) (creatorId : String) (now : Nat) :
    Option Lobby × SysState :=
  match st.activeLobbies.find? (fun p => p.2.creatorId = creatorId) with
  | some p => (some p.2, st)
  | none =>
      match rlive st.redis now ("user_lobby:" ++ creatorId) with
      | some (.str lobbyId) =>
          (match rlive st.redis now lobbyId with
           | some (.lobby l) =>
               if rttlMs st.redis now lobbyId ≤ 0 then
                 (none, deleteLobby st lobbyId)
               else
                 (some l, { st with activeLobbies := mset st.activeLobbies l.id l })
           | some _ => (none, st)
           | none =>
               (none, { st with
                 redis := rdel st.redis ("user_lobby:" ++ creatorId) }))
      | some _ => (none, st)
      | none => (none, st)

/-- Result of GameGateway.handleMove: the error returns and the success
return, with the timeout branch carrying the emitted `gameEnded`
payload (winner, reason, and the move count derived from the nonempty
board cells). -/
inductive MoveOutcome where
  | sessionNotFound
  | timeoutEnded (winner : String) (reason : String) (moves : Nat)
  | notYourTurn
  | success
  deriving Repr, DecidableEq

/-- GameGateway.handleMove: reads `game:{gameId}` (absent means session
not found); if more than 30 000 ms have passed since `lastMoveTime`,
deletes the game record and emits `gameEnded` with the opposite player
as winner and reason timeout; otherwise rejects a submitter who is not
`currentTurn`; otherwise writes the role marker at `position`, flips
`currentTurn`, sets `lastMoveTime` to the current time, re-persists
with EX 180 and refreshes the TTLs of the game, player and lobby keys.
Board positions are assumed in range (the DTO-validated case). -/
def handleMove (st : SysState) (gameId player : String) (position : Nat)
    (now : Nat) : MoveOutcome × SysState :=
  match rlive st.redis now ("game:" ++ gameId) with
  | some (.game g) =>
      if now - g.lastMoveTime > 30000 then
        let winner :=
          if g.currentTurn = g.creatorId then g.opponentId else g.creatorId
        let r := rdel st.redis ("game:" ++ gameId)
        (.timeoutEnded winner "timeout"
          ((g.board.filter (fun c => c ≠ "")).length),
         { st with redis := r })
      else if player ≠ g.currentTurn then
        (.notYourTurn, st)
      else
        let marker := if player = g.creatorId then "❌" else "⭕"
        let newBoard := g.board.set position marker
        let g' := { g with
          board := newBoard
          lastMoveTime := now
          currentTurn :=
            if player = g.creatorId then g.opponentId else g.creatorId }
        let r1 := rset st.redis ("game:" ++ gameId) (.game g') 180000 now
        let r2 := rexpire r1 now ("game:" ++ gameId)
        let r3 := rexpire r2 now ("player:" ++ player)
        let r4 := rexpire r3 now ("lobby:" ++ gameId)
        (.success, { st with redis := r4 })
  | some _ => (.sessionNotFound, st)
  | none => (.sessionNotFound, st)

/-- GameGateway.handleDisconnect: removes the socket from the connected
map; when the user has an active lobby, marks it pending and schedules
the 30 000 ms lobby-deletion timer; when the user is in a game with a
live in-memory session, emits the disconnect notice and schedules the
30 000 ms disconnect-loss timer.  Neither branch is cancelled here. -/
def handleDisconnect (st : SysState) (telegramId : String) (now : Nat) :
    SysState :=
  let st0 := { st with connectedClients := mdel st.connectedClients telegramId }
  let st1 :=
    match st0.clientLobbies.lookup telegramId with
    | some lobbyId =>
        let stp := markLobbyPending st0 lobbyId now
        let ts := mset stp.reconnectTimeouts telegramId
          (.lobbyTimer lobbyId (now + 30000))
        { stp with reconnectTimeouts := ts }
    | none => st0
  match st1.clientGames.lookup telegramId with
  | some gameId =>
      match st1.activeSessions.lookup gameId with
      | some _ =>
          let ts := mset st1.reconnectTimeouts telegramId
            (.gameTimer gameId (now + 30000))
          { st1 with reconnectTimeouts := ts }
      | none => st1
  | none => st1

/-- Body of the lobby grace timer scheduled by handleDisconnect: reads
the lobby through GameService.getLobby and, when it still has pending
status, deletes it, drops the client-lobby association and emits the
`lobbyDeleted` broadcast (the returned boolean).  The timer entry
itself is not removed by this callback. -/
def lobbyTimerFire (st : SysState) (telegramId lobbyId : String)
    (now : Nat) : SysState × Bool :=
  let g := getLobby st lobbyId now
  match g.1 with
  | some l =>
      if l.status = .pending then
        let st2 := deleteLobby g.2 lobbyId
        ({ st2 with clientLobbies := mdel st2.clientLobbies telegramId }, true)
      else (g.2, false)
  | none => (g.2, false)

/-- Reconnect path of GameGateway.handleConnection (lines 222–365) for a
returning client with no start parameter: reads `player:{telegramId}`
and, when it references a lobby whose `lobby:{id}` record is live,
updates the stored socket id if it changed, then either restores the
game room (when a `game:{id}` record exists or the lobby is closed,
joining the room, recording the game association and refreshing the
player/lobby/game TTLs) or restores the lobby room (when an invite was
sent or the gateway lobby record is pending, recording the lobby
association and refreshing the player/lobby TTLs).  Finally records the
socket in the connected map.  No branch touches `reconnectTimeouts` or
the service-side lobby status. -/
def handleConnectionRestore (st : SysState) (telegramId socketId : String)
    (now : Nat) : SysState :=
  let st' :=
    match rlive st.redis now ("player:" ++ telegramId) with
    | some (.player p) =>
        match p.lobbyId with
        | some lid =>
            (match rlive st.redis now ("lobby:" ++ lid) with
             | some (.lobbyMeta ld) =>
                 let stA :=
                   if ld.socketId ≠ socketId then
                     let rU := rset st.redis ("lobby:" ++ lid)
                       (.lobbyMeta { ld with socketId := socketId }) 180000 now
                     { st with redis := rU }
                   else st
                 let gameData := rlive stA.redis now ("game:" ++ lid)
                 if gameData.isSome ∨ ld.status = LobbyStatus.closed then
                   let r1 := rexpire stA.redis now ("player:" ++ telegramId)
                   let r2 := rexpire r1 now ("lobby:" ++ lid)
                   let r3 := rexpire r2 now ("game:" ++ lid)
                   { stA with redis := r3
                              clientGames := mset stA.clientGames telegramId lid }
                 else if p.inviteSent ∨ ld.status = LobbyStatus.pending then
                   let r1 := rexpire stA.redis now ("player:" ++ telegramId)
                   let r2 := rexpire r1 now ("lobby:" ++ lid)
                   { stA with redis := r2
                              clientLobbies := mset stA.clientLobbies telegramId lid }
                 else stA
             | _ => st)
        | none => st
    | _ => st
  { st' with connectedClients := mset st'.connectedClients telegramId socketId }

/-! Concrete scenario states used by the witness and counterexample
theorems. -/

/-- State in which creator 7 already holds the mutual-exclusion lock
(pointing at lobby_0) but has no rate-limit entry. -/
def lockHeldState : SysState :=
  { emptyState with
      redis := rset emptyState.redis "user_lobby:7" (.str "lobby_0") 180000 20 }

/-- Updated game record written by the success path of handleMove: the
role marker at the position, lastMoveTime set to the current time and
currentTurn flipped, all other fields (numMoves included) carried over
by the object spread. -/
def movedGame (g : RGame) (p : String) (pos now : Nat) : RGame :=
  { g with
      board := g.board.set pos (if p = g.creatorId then "❌" else "⭕")
      lastMoveTime := now
      currentTurn := if p = g.creatorId then g.opponentId else g.creatorId }

/-- Number of moves recorded inside the stored game record under a key,
when the key holds a game record. -/
def storedGameNumMoves (s : RStore) (k : String) : Option Nat :=
  match s k with
  | some (.game g, _) => some g.numMoves
  | _ => none

/-- Concrete game record used in the move scenarios: creator 1 against
opponent 2, creator to move, empty 9-cell board, last move at 1000. -/
def moveGame : RGame :=
  { creatorId := "1", opponentId := "2", currentTurn := "1"
    board := ["", "", "", "", "", "", "", "", ""]
    lastMoveTime := 1000, startTime := 500, numMoves := 0 }

/-- State holding the concrete game record under `game:room_1`. -/
def moveState : SysState :=
  { emptyState with
      redis := rset emptyState.redis "game:room_1" (.game moveGame) 180000 1000 }

/-- Lobby cached in process while its backing record is absent from the
store. -/
def cacheOnlyLobby : Lobby :=
  { id := "lobby_6", creatorId := "6", createdAt := 100, status := .active }

/-- State whose in-process cache holds a lobby with no backing record in
the store. -/
def cacheOnlyState : SysState :=
  { emptyState with activeLobbies := [("lobby_6", cacheOnlyLobby)] }

/-- State holding only a stale creator index (the primary record it
points at is missing). -/
def staleIndexState : SysState :=
  { emptyState with
      redis := rset emptyState.redis "user_lobby:8" (.str "lobby_8") 180000 100 }

/-- Lobby stored with a partially elapsed TTL. -/
def ttlLobby : Lobby :=
  { id := "lobby_9", creatorId := "9", createdAt := 100, status := .active }

/-- State with the index and primary record of ttlLobby both expiring at
60 000 — their TTLs are partially consumed, so a keepalive refresh would
be observable. -/
def ttlState : SysState :=
  { emptyState with
      redis := rset (rset emptyState.redis "user_lobby:9" (.str "lobby_9")
        59900 100) "lobby_9" (.lobby ttlLobby) 59900 100 }

/-- Lobby present in the store (primary record and creator index) but
absent from the in-process cache, as after a process restart. -/
def redisOnlyState : SysState :=
  { emptyState with
      redis := rset (rset emptyState.redis "lobby_0"
        (.lobby ⟨"lobby_0", "7", 10, .active⟩) 180000 10) "user_lobby:7"
        (.str "lobby_0") 180000 10 }

/-- State with lobby_0 of creator 7 present in the store, the in-process
cache and the rate-limit map. -/
def cachedLobbyState : SysState :=
  { redisOnlyState with
      activeLobbies := [("lobby_0", ⟨"lobby_0", "7", 10, .active⟩)]
      userLobbyRequests := [("7", ⟨1, 10⟩)] }

/-- Lobby of creator 100 used in the disconnect/reconnect scenario. -/
def c5Lobby : Lobby :=
  { id := "lobby_1", creatorId := "100", createdAt := 1000, status := .active }

/-- State right after creator 100 created lobby_1 over socket s1: the
service cache and store records, the gateway lobby and player records
(invite already sent), and the client associations that
handleCreateLobby installs. -/
def c5State : SysState :=
  { emptyState with
      activeLobbies := [("lobby_1", c5Lobby)]
      clientLobbies := [("100", "lobby_1")]
      clientGames := [("100", "lobby_1")]
      connectedClients := [("100", "s1")]
      redis := rset (rset (rset (rset emptyState.redis
        "lobby_1" (.lobby c5Lobby) 180000 1000)
        "user_lobby:100" (.str "lobby_1") 180000 1000)
        "lobby:lobby_1" (.lobbyMeta ⟨"100", .active, "s1"⟩) 180000 1000)
        "player:100" (.player ⟨some "lobby_1", true, "❌"⟩) 180000 1000 }

/-- State after creator 100 disconnects at time 2000. -/
def c5AfterDisconnect : SysState := handleDisconnect c5State "100" 2000

/-- State after creator 100 reconnects on socket s2 at time 12000,
10 000 ms into the 30 000 ms grace period. -/
def c5AfterReconnect : SysState :=
  handleConnectionRestore c5AfterDisconnect "100" "s2" 12000

/-! Helper lemmas about the JavaScript-Map model. -/

theorem lookup_cons_unfold {α : Type} (a k : String) (b : α)
    (tl : List (String × α)) :
    List.lookup k ((a, b) :: tl)
      = if k == a then some b else List.lookup k tl := by
  cases h : (k == a) <;> simp [List.lookup, h]

theorem lookup_map_update {α : Type} (m : List (String × α)) (k : String)
    (v : α) :
    m.lookup k = none
      ∨ (m.map (fun p => if p.1 = k then (k, v) else p)).lookup k = some v := by
  induction m with
  | nil => left; rfl
  | cons hd tl ih =>
      rcases hd with ⟨a, b⟩
      by_cases hk : a = k
      · right
        subst hk
        simp [lookup_cons_unfold]
      · have hb : (k == a) = false := beq_false_of_ne (fun h => hk h.symm)
        rcases ih with h | h
        · left
          simp [lookup_cons_unfold, hb, h]
        · right
          simp [lookup_cons_unfold, hk, hb, h]

theorem lookup_append_single {α : Type} (m : List (String × α)) (k : String)
    (v : α) (h : m.lookup k = none) :
    (m ++ [(k, v)]).lookup k = some v := by
  induction m with
  | nil => simp [lookup_cons_unfold]
  | cons hd tl ih =>
      rcases hd with ⟨a, b⟩
      by_cases hk : k = a
      · subst hk
        simp [lookup_cons_unfold] at h
      · have hb : (k == a) = false := beq_false_of_ne hk
        rw [lookup_cons_unfold, hb] at h
        rw [List.cons_append, lookup_cons_unfold, hb]
        simp only [Bool.false_eq_true, if_false] at h ⊢
        exact ih h

theorem lookup_mset_self {α : Type} (m : List (String × α)) (k : String)
    (v : α) : (mset m k v).lookup k = some v := by
  by_cases h : (m.lookup k).isSome
  · rcases lookup_map_update m k v with h' | h'
    · rw [h'] at h
      simp at h
    · simpa [mset, h] using h'
  · have hn : m.lookup k = none := by
      cases hm : m.lookup k with
      | none => rfl
      | some w => rw [hm] at h; simp at h
    simp only [mset, hn, Option.isSome_none, Bool.false_eq_true, if_false]
    exact lookup_append_single m k v hn

theorem lookup_append_single_ne {α : Type} (m : List (String × α))
    (k k' : String) (v : α) (hne : k' ≠ k) :
    (m ++ [(k, v)]).lookup k' = m.lookup k' := by
  induction m with
  | nil => simp [lookup_cons_unfold, beq_false_of_ne hne]
  | cons hd tl ih =>
      rcases hd with ⟨a, b⟩
      rw [List.cons_append, lookup_cons_unfold, lookup_cons_unfold, ih]

theorem lookup_map_update_ne {α : Type} (m : List (String × α))
    (k k' : String) (v : α) (hne : k' ≠ k) :
    (m.map (fun p => if p.1 = k then (k, v) else p)).lookup k'
      = m.lookup k' := by
  have hbk : (k' == k) = false := beq_false_of_ne hne
  induction m with
  | nil => rfl
  | cons hd tl ih =>
      rcases hd with ⟨a, b⟩
      by_cases hk : a = k
      · subst hk
        simp [lookup_cons_unfold, hbk, ih]
      · simp [if_neg hk, lookup_cons_unfold, ih]

theorem lookup_mset_ne {α : Type} (m : List (String × α)) (k k' : String)
    (v : α) (hne : k' ≠ k) : (mset m k v).lookup k' = m.lookup k' := by
  by_cases h : (m.lookup k).isSome
  · simpa [mset, h] using lookup_map_update_ne m k k' v hne
  · simpa [mset, h] using lookup_append_single_ne m k k' v hne

theorem lookup_mdel_self {α : Type} (m : List (String × α)) (k : String) :
    (mdel m k).lookup k = none := by
  induction m with
  | nil => rfl
  | cons hd tl ih =>
      rcases hd with ⟨a, b⟩
      by_cases hk : a = k
      · subst hk
        simpa [mdel] using ih
      · have hb : (k == a) = false := beq_false_of_ne (fun h => hk h.symm)
        have ha : (a == k) = false := beq_false_of_ne hk
        simp only [mdel] at ih ⊢
        simp [List.filter_cons, ha, lookup_cons_unfold, hb, ih]

theorem lookup_mdel_ne {α : Type} (m : List (String × α)) (k k' : String)
    (hne : k' ≠ k) : (mdel m k).lookup k' = m.lookup k' := by
  induction m with
  | nil => rfl
  | cons hd tl ih =>
      rcases hd with ⟨a, b⟩
      by_cases hk : a = k
      · subst hk
        have hb : (k' == a) = false := beq_false_of_ne hne
        simp only [mdel] at ih ⊢
        simp [List.filter_cons, lookup_cons_unfold, hb, ih]
      · have ha : (a == k) = false := beq_false_of_ne hk
        simp only [mdel] at ih ⊢
        simp [List.filter_cons, ha, lookup_cons_unfold, ih]

/-! Pointwise facts about the store primitives. -/

theorem rlive_rset_self (s : RStore) (k : String) (v : RVal)
    (ttlMs now now' : Nat) (h : now' < now + ttlMs) :
    rlive (rset s k v ttlMs now) now' k = some v := by
  simp [rlive, rset, h]

theorem rlive_rset_ne (s : RStore) (k k' : String) (v : RVal)
    (ttlMs now now' : Nat) (h : k' ≠ k) :
    rlive (rset s k v ttlMs now) now' k' = rlive s now' k' := by
  simp [rlive, rset, h]

theorem rlive_rdel_self (s : RStore) (k : String) (now : Nat) :
    rlive (rdel s k) now k = none := by
  simp [rlive, rdel]

theorem rlive_rdel_ne (s : RStore) (k k' : String) (now : Nat)
    (h : k' ≠ k) : rlive (rdel s k) now k' = rlive s now k' := by
  simp [rlive, rdel, h]

theorem rset_app_self (s : RStore) (k : String) (v : RVal)
    (ttlMs now : Nat) : rset s k v ttlMs now k = some (v, now + ttlMs) := by
  simp [rset]

theorem rset_app_ne (s : RStore) (k k' : String) (v : RVal)
    (ttlMs now : Nat) (h : k' ≠ k) : rset s k v ttlMs now k' = s k' := by
  simp [rset, h]

theorem rdel_app_self (s : RStore) (k : String) : rdel s k k = none := by
  simp [rdel]

theorem rdel_app_ne (s : RStore) (k k' : String) (h : k' ≠ k) :
    rdel s k k' = s k' := by
  simp [rdel, h]

theorem rexpire_app_ne (s : RStore) (now : Nat) (k k' : String)
    (h : k' ≠ k) : rexpire s now k k' = s k' := by
  unfold rexpire
  rcases hsk : s k with _ | ⟨v, e⟩
  · rfl
  · by_cases he : now < e <;> simp [he, h]

theorem rexpire_app_self_live (s : RStore) (now : Nat) (k : String)
    (v : RVal) (e : Nat) (hsk : s k = some (v, e)) (hlt : now < e) :
    rexpire s now k k = some (v, now + 180000) := by
  unfold rexpire
  rw [hsk]
  simp [hlt]

/-! Characterizations of the rate limiter on the three kinds of lookup
outcome. -/

theorem checkRateLimit_none (m : List (String × RateEntry)) (c : String)
    (t : Nat) (h : m.lookup c = none) :
    checkRateLimit m c t = (true, mset m c ⟨1, t⟩) := by
  simp [checkRateLimit, h]

theorem checkRateLimit_reset (m : List (String × RateEntry)) (c : String)
    (t : Nat) (e : RateEntry) (h : m.lookup c = some e)
    (ht : t - e.timestamp > 60000) :
    checkRateLimit m c t = (true, mset m c ⟨1, t⟩) := by
  simp [checkRateLimit, h, ht]

theorem checkRateLimit_reject (m : List (String × RateEntry)) (c : String)
    (t : Nat) (e : RateEntry) (h : m.lookup c = some e)
    (ht : ¬(t - e.timestamp > 60000)) (hc : e.count ≥ 1) :
    checkRateLimit m c t = (false, m) := by
  simp [checkRateLimit, h, ht, hc]

/-- Claim C9: the rate limiter allows at most one lobby creation per user
per 60 000 ms window: the first request for a user opens a window and is
allowed; any further request within the same window is rejected; once
more than the window duration has passed since the window opened, the
next request resets the window and is allowed.  In particular two calls
5 seconds apart have the second rejected, while two calls 61 seconds
apart both pass the limiter. -/
theorem C9_rate_limit_window
    (m1 m2 m3 : List (String × RateEntry)) (c : String)
    (t t2 t3 : Nat) (e2 e3 : RateEntry)
    (h1 : m1.lookup c = none)
    (h2 : m2.lookup c = some e2) (h2a : t2 - e2.timestamp ≤ 60000)
    (h2b : e2.count ≥ 1)
    (h3 : m3.lookup c = some e3) (h3a : t3 - e3.timestamp > 60000) :
    ((checkRateLimit m1 c t).1 = true
      ∧ (checkRateLimit m1 c t).2.lookup c = some ⟨1, t⟩)
    ∧ ((checkRateLimit (checkRateLimit m1 c t).2 c (t + 5000)).1 = false
      ∧ (checkRateLimit (checkRateLimit m1 c t).2 c (t + 5000)).2
          = (checkRateLimit m1 c t).2)
    ∧ (checkRateLimit (checkRateLimit m1 c t).2 c (t + 61000)).1 = true
    ∧ ((checkRateLimit m2 c t2).1 = false ∧ (checkRateLimit m2 c t2).2 = m2)
    ∧ ((checkRateLimit m3 c t3).1 = true
      ∧ (checkRateLimit m3 c t3).2.lookup c = some ⟨1, t3⟩) := by
  have hfirst := checkRateLimit_none m1 c t h1
  have hl : (checkRateLimit m1 c t).2.lookup c = some ⟨1, t⟩ := by
    rw [hfirst]
    exact lookup_mset_self m1 c ⟨1, t⟩
  have hsecond := checkRateLimit_reject (checkRateLimit m1 c t).2 c
    (t + 5000) ⟨1, t⟩ hl (by show ¬(t + 5000 - t > 60000); omega)
    (by show 1 ≥ 1; omega)
  have hthird := checkRateLimit_reset (checkRateLimit m1 c t).2 c
    (t + 61000) ⟨1, t⟩ hl (by show t + 61000 - t > 60000; omega)
  have h4 := checkRateLimit_reject m2 c t2 e2 h2 (by omega) h2b
  have h5 := checkRateLimit_reset m3 c t3 e3 h3 h3a
  refine ⟨⟨by rw [hfirst], hl⟩, ⟨by rw [hsecond], by rw [hsecond]⟩,
    by rw [hthird], ⟨by rw [h4], by rw [h4]⟩,
    ⟨by rw [h5], ?_⟩⟩
  rw [h5]
  exact lookup_mset_self m3 c ⟨1, t3⟩

/-- Witness for C9: concrete maps and times satisfying every hypothesis,
with the limiter allowing the first request and rejecting one 5 seconds
later. -/
theorem C9_rate_limit_window_witness :
    (([] : List (String × RateEntry)).lookup "7" = none
      ∧ [("7", RateEntry.mk 1 500)].lookup "7" = some ⟨1, 500⟩
      ∧ [("7", RateEntry.mk 1 0)].lookup "7" = some ⟨1, 0⟩)
    ∧ (checkRateLimit [] "7" 1000).1 = true
    ∧ (checkRateLimit (checkRateLimit [] "7" 1000).2 "7" (1000 + 5000)).1
        = false
    ∧ (checkRateLimit (checkRateLimit [] "7" 1000).2 "7" (1000 + 61000)).1
        = true := by
  have h := C9_rate_limit_window [] [("7", ⟨1, 500⟩)] [("7", ⟨1, 0⟩)] "7"
    1000 5000 70000 ⟨1, 500⟩ ⟨1, 0⟩ (by decide) (by decide) (by decide)
    (by decide) (by decide) (by decide)
  exact ⟨⟨by decide, by decide, by decide⟩, h.1.1, h.2.1.1, h.2.2.1⟩

/-- Passing the rate limiter always leaves an entry with count at least
one under the caller in the updated map. -/
theorem checkRateLimit_pass_lookup (m : List (String × RateEntry))
    (c : String) (t : Nat) (h : (checkRateLimit m c t).1 = true) :
    ∃ e : RateEntry, (checkRateLimit m c t).2.lookup c = some e
      ∧ e.count ≥ 1 := by
  cases hm : m.lookup c with
  | none =>
      rw [checkRateLimit_none m c t hm]
      exact ⟨⟨1, t⟩, lookup_mset_self m c ⟨1, t⟩, le_refl 1⟩
  | some e =>
      by_cases hw : t - e.timestamp > 60000
      · rw [checkRateLimit_reset m c t e hm hw]
        exact ⟨⟨1, t⟩, lookup_mset_self m c ⟨1, t⟩, le_refl 1⟩
      · by_cases hc : e.count ≥ 1
        · rw [checkRateLimit_reject m c t e hm hw hc] at h
          simp at h
        · have hinc : checkRateLimit m c t
              = (true, mset m c ⟨e.count + 1, e.timestamp⟩) := by
            simp [checkRateLimit, hm, hw, hc]
          rw [hinc]
          exact ⟨⟨e.count + 1, e.timestamp⟩,
            lookup_mset_self m c ⟨e.count + 1, e.timestamp⟩,
            Nat.le_add_left 1 e.count⟩

/-- Discriminator for the created outcome of createLobby. -/
def isCreated : CreateLobbyResult → Bool
  | .created _ => true
  | _ => false

/-! Characterizations of createLobby on its three paths. -/

theorem createLobby_rateLimited (st : SysState) (c : String) (now : Nat)
    (fid : String)
    (h : (checkRateLimit st.userLobbyRequests c now).1 = false) :
    createLobby st c now fid =
      (.rateLimited,
       { st with userLobbyRequests :=
           (checkRateLimit st.userLobbyRequests c now).2 }) := by
  simp [createLobby, h]

theorem createLobby_duplicate (st : SysState) (c : String) (now : Nat)
    (fid : String) (v : RVal)
    (hrl : (checkRateLimit st.userLobbyRequests c now).1 = true)
    (h : rlive st.redis now ("user_lobby:" ++ c) = some v) :
    createLobby st c now fid =
      (.duplicateLobby,
       { st with userLobbyRequests :=
           (checkRateLimit st.userLobbyRequests c now).2 }) := by
  simp [createLobby, hrl, h]

theorem createLobby_success (st : SysState) (c : String) (now : Nat)
    (fid : String)
    (hrl : (checkRateLimit st.userLobbyRequests c now).1 = true)
    (h : rlive st.redis now ("user_lobby:" ++ c) = none) :
    createLobby st c now fid =
      (.created ⟨fid, c, now, .active⟩,
       { st with
         userLobbyRequests := (checkRateLimit st.userLobbyRequests c now).2
         redis := rset (rset
             (rset st.redis ("user_lobby:" ++ c) (.str "pending") 180000 now)
             fid (.lobby ⟨fid, c, now, .active⟩) 180000 now)
           ("user_lobby:" ++ c) (.str fid) 180000 now
         activeLobbies :=
           mset st.activeLobbies fid ⟨fid, c, now, .active⟩ }) := by
  simp [createLobby, hrl, h]

/-- Claim C1: when the mutual-exclusion index key `user_lobby:{creatorId}`
is absent (and the caller passes the rate limiter), the atomic
conditional-set succeeds and createLobby returns the created lobby with
both the primary record and the index written; when the key already
exists, the call fails with the duplicate-lobby error and writes nothing
to the store; and among two competing creations by the same creator
(the second issued while the first call's lock is still alive) exactly
one returns the created status. -/
theorem C1_create_lobby_mutual_exclusion
    (st st2 : SysState) (c fid fid2 fid3 : String) (t t2 t3 : Nat)
    (v : RVal)
    (hrl : (checkRateLimit st.userLobbyRequests c t).1 = true)
    (habs : rlive st.redis t ("user_lobby:" ++ c) = none)
    (hfid : fid ≠ "user_lobby:" ++ c)
    (hrl2 : (checkRateLimit st2.userLobbyRequests c t3).1 = true)
    (hpres : rlive st2.redis t3 ("user_lobby:" ++ c) = some v)
    (hle : t ≤ t2) (hlt : t2 < t + 180000) :
    ((createLobby st c t fid).1 = .created ⟨fid, c, t, .active⟩
      ∧ rlive (createLobby st c t fid).2.redis t ("user_lobby:" ++ c)
          = some (.str fid)
      ∧ rlive (createLobby st c t fid).2.redis t fid
          = some (.lobby ⟨fid, c, t, .active⟩))
    ∧ ((createLobby st2 c t3 fid3).1 = .duplicateLobby
      ∧ (createLobby st2 c t3 fid3).2.redis = st2.redis)
    ∧ isCreated (createLobby (createLobby st c t fid).2 c t2 fid2).1
        = false := by
  have hsucc := createLobby_success st c t fid hrl habs
  refine ⟨⟨by rw [hsucc], ?_, ?_⟩, ?_, ?_⟩
  · rw [hsucc]
    exact rlive_rset_self _ _ _ _ _ _ (by omega)
  · rw [hsucc]
    rw [rlive_rset_ne _ _ _ _ _ _ _ hfid]
    exact rlive_rset_self _ _ _ _ _ _ (by omega)
  · have hdup := createLobby_duplicate st2 c t3 fid3 v hrl2 hpres
    exact ⟨by rw [hdup], by rw [hdup]⟩
  · rcases checkRateLimit_pass_lookup st.userLobbyRequests c t hrl with
      ⟨e, he, hec⟩
    have hlook : (createLobby st c t fid).2.userLobbyRequests.lookup c
        = some e := by
      rw [hsucc]
      exact he
    by_cases hwin : t2 - e.timestamp > 60000
    · have hcr := checkRateLimit_reset
        (createLobby st c t fid).2.userLobbyRequests c t2 e hlook hwin
      have hlock : rlive (createLobby st c t fid).2.redis t2
          ("user_lobby:" ++ c) = some (.str fid) := by
        rw [hsucc]
        exact rlive_rset_self _ _ _ _ _ _ (by omega)
      have hd := createLobby_duplicate (createLobby st c t fid).2 c t2
        fid2 (.str fid) (by rw [hcr]) hlock
      rw [hd]
      rfl
    · have hcr := checkRateLimit_reject
        (createLobby st c t fid).2.userLobbyRequests c t2 e hlook hwin hec
      have hd := createLobby_rateLimited (createLobby st c t fid).2 c t2
        fid2 (by rw [hcr])
      rw [hd]
      rfl

/-- Witness for C1: from the empty state, creator 7 creates lobby_1 at
time 1000; a competing call at 2000 is not a creation, and a call on
the post-creation state at 70000 (past the rate window, lock still
alive) fails with the duplicate-lobby error. -/
theorem C1_create_lobby_mutual_exclusion_witness :
    ((checkRateLimit emptyState.userLobbyRequests "7" 1000).1 = true
      ∧ rlive emptyState.redis 1000 ("user_lobby:" ++ "7") = none)
    ∧ (createLobby emptyState "7" 1000 "lobby_1").1
        = .created ⟨"lobby_1", "7", 1000, .active⟩
    ∧ isCreated (createLobby (createLobby emptyState "7" 1000 "lobby_1").2
        "7" 2000 "lobby_2").1 = false
    ∧ (createLobby (createLobby emptyState "7" 1000 "lobby_1").2
        "7" 70000 "lobby_3").1 = .duplicateLobby := by
  have h := C1_create_lobby_mutual_exclusion emptyState
    (createLobby emptyState "7" 1000 "lobby_1").2 "7" "lobby_1" "lobby_2"
    "lobby_3" 1000 2000 70000 (.str "lobby_1") (by decide) (by decide)
    (by decide) (by decide) (by decide) (by decide) (by decide)
  exact ⟨⟨by decide, by decide⟩, h.1.1, h.2.2, h.2.1.1⟩

/-- Claim C10: createLobby consumes the rate-limit allowance before the
mutual-exclusion lock attempt, so a call that fails with the
duplicate-lobby error still opens the caller's window, and an
immediately following call within the same 60 000 ms window fails with
the rate-limit error instead. -/
theorem C10_rate_window_consumed_on_duplicate
    (st : SysState) (c fid fid2 : String) (t t2 : Nat) (v : RVal)
    (hnone : st.userLobbyRequests.lookup c = none)
    (hpres : rlive st.redis t ("user_lobby:" ++ c) = some v)
    (hwin : t2 - t ≤ 60000) :
    (createLobby st c t fid).1 = .duplicateLobby
    ∧ (createLobby st c t fid).2.userLobbyRequests.lookup c = some ⟨1, t⟩
    ∧ (createLobby (createLobby st c t fid).2 c t2 fid2).1
        = .rateLimited := by
  have hrl := checkRateLimit_none st.userLobbyRequests c t hnone
  have hdup := createLobby_duplicate st c t fid v (by rw [hrl]) hpres
  have hlook : (createLobby st c t fid).2.userLobbyRequests.lookup c
      = some ⟨1, t⟩ := by
    rw [hdup]
    show (checkRateLimit st.userLobbyRequests c t).2.lookup c = some ⟨1, t⟩
    rw [hrl]
    exact lookup_mset_self st.userLobbyRequests c ⟨1, t⟩
  have hcr := checkRateLimit_reject
    (createLobby st c t fid).2.userLobbyRequests c t2 ⟨1, t⟩ hlook
    (by show ¬(t2 - t > 60000); omega) (by show 1 ≥ 1; omega)
  have hrt := createLobby_rateLimited (createLobby st c t fid).2 c t2 fid2
    (by rw [hcr])
  exact ⟨by rw [hdup], hlook, by rw [hrt]⟩

/-- Witness for C10: with the lock held by lobby_0 and an empty rate map,
creator 7 gets the duplicate-lobby error at 1000 and the rate-limit
error at 5000. -/
theorem C10_rate_window_consumed_on_duplicate_witness :
    (lockHeldState.userLobbyRequests.lookup "7" = none
      ∧ rlive lockHeldState.redis 1000 ("user_lobby:" ++ "7")
          = some (.str "lobby_0"))
    ∧ (createLobby lockHeldState "7" 1000 "lobby_1").1 = .duplicateLobby
    ∧ (createLobby (createLobby lockHeldState "7" 1000 "lobby_1").2
        "7" 5000 "lobby_2").1 = .rateLimited := by
  have h := C10_rate_window_consumed_on_duplicate lockHeldState "7"
    "lobby_1" "lobby_2" 1000 5000 (.str "lobby_0") (by decide) (by decide)
    (by decide)
  exact ⟨⟨by decide, by decide⟩, h.1, h.2.2⟩

/-! Characterizations of handleMove on its four paths. -/

theorem handleMove_notFound (st : SysState) (gid p : String) (pos now : Nat)
    (h : rlive st.redis now ("game:" ++ gid) = none) :
    handleMove st gid p pos now = (.sessionNotFound, st) := by
  simp [handleMove, h]

theorem handleMove_timeout (st : SysState) (gid p : String) (pos now : Nat)
    (g : RGame) (hg : rlive st.redis now ("game:" ++ gid) = some (.game g))
    (ht : now - g.lastMoveTime > 30000) :
    handleMove st gid p pos now =
      (.timeoutEnded
        (if g.currentTurn = g.creatorId then g.opponentId else g.creatorId)
        "timeout" ((g.board.filter (fun c => c ≠ "")).length),
       { st with redis := rdel st.redis ("game:" ++ gid) }) := by
  simp [handleMove, hg, ht]

theorem handleMove_notYourTurn (st : SysState) (gid p : String)
    (pos now : Nat) (g : RGame)
    (hg : rlive st.redis now ("game:" ++ gid) = some (.game g))
    (ht : ¬(now - g.lastMoveTime > 30000)) (hp : p ≠ g.currentTurn) :
    handleMove st gid p pos now = (.notYourTurn, st) := by
  simp [handleMove, hg, ht, hp]

theorem handleMove_success (st : SysState) (gid p : String) (pos now : Nat)
    (g : RGame) (hg : rlive st.redis now ("game:" ++ gid) = some (.game g))
    (ht : ¬(now - g.lastMoveTime > 30000)) (hp : p = g.currentTurn) :
    handleMove st gid p pos now =
      (.success,
       { st with
           redis := rexpire (rexpire (rexpire
               (rset st.redis ("game:" ++ gid)
                 (.game (movedGame g p pos now)) 180000 now)
               now ("game:" ++ gid)) now ("player:" ++ p))
               now ("lobby:" ++ gid) }) := by
  subst hp
  simp [handleMove, hg, ht, movedGame]

/-- Claim C2: a move on an existing session arriving more than 30 000 ms
after lastMoveTime is not applied; the session resolves as a timeout
loss for the player who was currentTurn — the winner is the other
player, the reported reason is timeout, and the game record is removed
(and nothing else in the store is touched). -/
theorem C2_move_timeout_resolution (st : SysState) (gid p : String)
    (pos now : Nat) (g : RGame)
    (hg : rlive st.redis now ("game:" ++ gid) = some (.game g))
    (ht : now - g.lastMoveTime > 30000)
    (hturn : g.currentTurn = g.creatorId ∨ g.currentTurn = g.opponentId)
    (hne : g.creatorId ≠ g.opponentId) :
    (handleMove st gid p pos now).1
      = .timeoutEnded
          (if g.currentTurn = g.creatorId then g.opponentId else g.creatorId)
          "timeout" ((g.board.filter (fun c => c ≠ "")).length)
    ∧ (if g.currentTurn = g.creatorId then g.opponentId else g.creatorId)
        ≠ g.currentTurn
    ∧ (handleMove st gid p pos now).2.redis
        = rdel st.redis ("game:" ++ gid)
    ∧ rlive (handleMove st gid p pos now).2.redis now ("game:" ++ gid)
        = none := by
  have hM := handleMove_timeout st gid p pos now g hg ht
  refine ⟨by rw [hM], ?_, by rw [hM], ?_⟩
  · rcases hturn with hc | ho
    · rw [if_pos hc, hc]
      exact fun h => hne h.symm
    · by_cases hcc : g.currentTurn = g.creatorId
      · rw [if_pos hcc, hcc]
        exact fun h => hne h.symm
      · rw [if_neg hcc, ho]
        exact hne
  · rw [hM]
    exact rlive_rdel_self st.redis ("game:" ++ gid) now

/-- Witness for C2: a move on the concrete session 39 000 ms after the
last move ends the game with opponent 2 as winner and reason timeout,
and deletes the record. -/
theorem C2_move_timeout_resolution_witness :
    (rlive moveState.redis 40000 ("game:" ++ "room_1")
        = some (.game moveGame)
      ∧ 40000 - moveGame.lastMoveTime > 30000)
    ∧ (handleMove moveState "room_1" "1" 4 40000).1
        = .timeoutEnded
            (if moveGame.currentTurn = moveGame.creatorId then
              moveGame.opponentId else moveGame.creatorId)
            "timeout" ((moveGame.board.filter (fun c => c ≠ "")).length)
    ∧ rlive (handleMove moveState "room_1" "1" 4 40000).2.redis 40000
        ("game:" ++ "room_1") = none := by
  have h := C2_move_timeout_resolution moveState "room_1" "1" 4 40000
    moveGame (by decide) (by decide) (by decide) (by decide)
  exact ⟨⟨by decide, by decide⟩, h.1, h.2.2.2⟩

/-- Counterexample to claim C3 as stated: a submission by player 2, who
is not currentTurn, on an existing session whose move window has
expired, does not return the not-your-turn error — it triggers the
timeout resolution and deletes the game record, so the session state is
not left unchanged. -/
theorem C3_counterexample :
    "2" ≠ moveGame.currentTurn
    ∧ rlive moveState.redis 40000 ("game:" ++ "room_1")
        = some (.game moveGame)
    ∧ (handleMove moveState "room_1" "2" 4 40000).1 ≠ .notYourTurn
    ∧ (handleMove moveState "room_1" "2" 4 40000).2.redis "game:room_1"
        = none := by
  refine ⟨by decide, by decide, ?_, ?_⟩
  · have hM := handleMove_timeout moveState "room_1" "2" 4 40000 moveGame
      (by decide) (by decide)
    rw [hM]
    decide
  · have hM := handleMove_timeout moveState "room_1" "2" 4 40000 moveGame
      (by decide) (by decide)
    rw [hM]
    exact rdel_app_self moveState.redis "game:room_1"

/-- Claim C3, amended: a move submitted within the 30 000 ms window by a
player who is not currentTurn returns the not-your-turn error and
leaves the whole state (board, currentTurn, numMoves, the entire
store) unchanged; a non-currentTurn submission after the window instead
triggers the timeout resolution, because the timeout check precedes the
turn check. -/
theorem C3_not_your_turn_frame (st : SysState) (gid p : String)
    (pos now : Nat) (g : RGame)
    (hg : rlive st.redis now ("game:" ++ gid) = some (.game g))
    (ht : now - g.lastMoveTime ≤ 30000) (hp : p ≠ g.currentTurn) :
    (handleMove st gid p pos now).1 = .notYourTurn
    ∧ (handleMove st gid p pos now).2 = st := by
  have hM := handleMove_notYourTurn st gid p pos now g hg (by omega) hp
  exact ⟨by rw [hM], by rw [hM]⟩

/-- Witness for the amended C3: a timely submission by player 2 while it
is player 1's turn is rejected with state unchanged. -/
theorem C3_not_your_turn_frame_witness :
    (rlive moveState.redis 2000 ("game:" ++ "room_1")
        = some (.game moveGame)
      ∧ 2000 - moveGame.lastMoveTime ≤ 30000
      ∧ "2" ≠ moveGame.currentTurn)
    ∧ (handleMove moveState "room_1" "2" 4 2000).1 = .notYourTurn
    ∧ (handleMove moveState "room_1" "2" 4 2000).2 = moveState := by
  have h := C3_not_your_turn_frame moveState "room_1" "2" 4 2000 moveGame
    (by decide) (by decide) (by decide)
  exact ⟨⟨by decide, by decide, by decide⟩, h.1, h.2⟩

/-- Counterexample to claim C4 as stated: a legal, timely move succeeds
but the stored record's numMoves stays 0 instead of being incremented
to 1 — handleMove never increments numMoves (the served move count is
derived from the nonempty board cells instead). -/
theorem C4_counterexample :
    storedGameNumMoves moveState.redis "game:room_1" = some 0
    ∧ (handleMove moveState "room_1" "1" 4 2000).1 = .success
    ∧ storedGameNumMoves (handleMove moveState "room_1" "1" 4 2000).2.redis
        "game:room_1" = some 0 := by
  decide

/-- Claim C4, amended: a legal, timely move (submitter is currentTurn,
at most 30 000 ms since lastMoveTime, position within the board) writes
the submitter's role marker at the position, flips currentTurn to the
other player, sets lastMoveTime to the move time, re-persists the
record with its TTL refreshed to the full 180 000 ms — and leaves
numMoves unchanged rather than incrementing it. -/
theorem C4_legal_move_update (st : SysState) (gid p : String)
    (pos now : Nat) (g : RGame)
    (hg : rlive st.redis now ("game:" ++ gid) = some (.game g))
    (ht : now - g.lastMoveTime ≤ 30000) (hp : p = g.currentTurn)
    (hk1 : "game:" ++ gid ≠ "player:" ++ p)
    (hk2 : "game:" ++ gid ≠ "lobby:" ++ gid) :
    (handleMove st gid p pos now).1 = .success
    ∧ (handleMove st gid p pos now).2.redis ("game:" ++ gid)
        = some (.game (movedGame g p pos now), now + 180000)
    ∧ storedGameNumMoves (handleMove st gid p pos now).2.redis
        ("game:" ++ gid) = some g.numMoves
    ∧ (movedGame g p pos now).numMoves = g.numMoves := by
  have hM := handleMove_success st gid p pos now g hg (by omega) hp
  have hchain : (rexpire (rexpire (rexpire
        (rset st.redis ("game:" ++ gid)
          (.game (movedGame g p pos now)) 180000 now)
        now ("game:" ++ gid)) now ("player:" ++ p))
        now ("lobby:" ++ gid)) ("game:" ++ gid)
      = some (.game (movedGame g p pos now), now + 180000) := by
    rw [rexpire_app_ne _ _ _ _ hk2, rexpire_app_ne _ _ _ _ hk1,
      rexpire_app_self_live _ now _ _ (now + 180000)
        (rset_app_self _ _ _ _ _) (by omega)]
  have happ : (handleMove st gid p pos now).2.redis ("game:" ++ gid)
      = some (.game (movedGame g p pos now), now + 180000) := by
    rw [hM]
    exact hchain
  refine ⟨by rw [hM], happ, ?_, rfl⟩
  rw [storedGameNumMoves, happ]
  rfl

/-- Witness for the amended C4: player 1 moves at position 4 at time
2000; the stored record has the cross marker at cell 4, turn flipped to
player 2, lastMoveTime 2000, full TTL, and numMoves still 0. -/
theorem C4_legal_move_update_witness :
    (rlive moveState.redis 2000 ("game:" ++ "room_1")
        = some (.game moveGame)
      ∧ 2000 - moveGame.lastMoveTime ≤ 30000
      ∧ "1" = moveGame.currentTurn)
    ∧ (handleMove moveState "room_1" "1" 4 2000).1 = .success
    ∧ (handleMove moveState "room_1" "1" 4 2000).2.redis ("game:" ++ "room_1")
        = some (.game (movedGame moveGame "1" 4 2000), 2000 + 180000)
    ∧ (movedGame moveGame "1" 4 2000).numMoves = moveGame.numMoves := by
  have h := C4_legal_move_update moveState "room_1" "1" 4 2000 moveGame
    (by decide) (by decide) (by decide) (by decide) (by decide)
  exact ⟨⟨by decide, by decide, by decide⟩, h.1, h.2.1, h.2.2.2⟩

/-! Characterizations of the lobby read and delete operations. -/

theorem getLobby_cacheHit (st : SysState) (lobbyId : String) (now : Nat)
    (l : Lobby) (h : st.activeLobbies.lookup lobbyId = some l) :
    getLobby st lobbyId now = (some l, st) := by
  simp [getLobby, h]

theorem getLobby_missAbsent (st : SysState) (lobbyId : String) (now : Nat)
    (h1 : st.activeLobbies.lookup lobbyId = none)
    (h2 : rlive st.redis now lobbyId = none) :
    getLobby st lobbyId now = (none, st) := by
  simp [getLobby, h1, h2]

theorem getLobby_missHit (st : SysState) (lobbyId : String) (now : Nat)
    (l : Lobby) (h1 : st.activeLobbies.lookup lobbyId = none)
    (h2 : rlive st.redis now lobbyId = some (.lobby l)) :
    getLobby st lobbyId now =
      (some l, { st with activeLobbies := mset st.activeLobbies lobbyId l }) := by
  simp [getLobby, h1, h2]

theorem findLobbyByCreator_cacheHit (st : SysState) (c : String) (now : Nat)
    (pr : String × Lobby)
    (h : st.activeLobbies.find? (fun p => p.2.creatorId = c) = some pr) :
    findLobbyByCreator st c now = (some pr.2, st) := by
  simp [findLobbyByCreator, h]

theorem findLobbyByCreator_indexNone (st : SysState) (c : String)
    (now : Nat)
    (h0 : st.activeLobbies.find? (fun p => p.2.creatorId = c) = none)
    (h1 : rlive st.redis now ("user_lobby:" ++ c) = none) :
    findLobbyByCreator st c now = (none, st) := by
  simp [findLobbyByCreator, h0, h1]

theorem findLobbyByCreator_selfHeal (st : SysState) (c lid : String)
    (now : Nat)
    (h0 : st.activeLobbies.find? (fun p => p.2.creatorId = c) = none)
    (h1 : rlive st.redis now ("user_lobby:" ++ c) = some (.str lid))
    (h2 : rlive st.redis now lid = none) :
    findLobbyByCreator st c now =
      (none, { st with redis := rdel st.redis ("user_lobby:" ++ c) }) := by
  simp [findLobbyByCreator, h0, h1, h2]

theorem findLobbyByCreator_success (st : SysState) (c lid : String)
    (now : Nat) (l : Lobby) (e : Nat)
    (h0 : st.activeLobbies.find? (fun p => p.2.creatorId = c) = none)
    (h1 : rlive st.redis now ("user_lobby:" ++ c) = some (.str lid))
    (h2 : st.redis lid = some (.lobby l, e)) (he : now < e) :
    findLobbyByCreator st c now =
      (some l, { st with activeLobbies := mset st.activeLobbies l.id l }) := by
  have h2' : rlive st.redis now lid = some (.lobby l) := by
    simp [rlive, h2, he]
  have httl : ¬(rttlMs st.redis now lid ≤ 0) := by
    simp only [rttlMs, h2]
    omega
  simp [findLobbyByCreator, h0, h1, h2', httl]

theorem deleteLobby_notCached (st : SysState) (lobbyId : String)
    (h : st.activeLobbies.lookup lobbyId = none) :
    deleteLobby st lobbyId = st := by
  simp [deleteLobby, h]

theorem deleteLobby_cached (st : SysState) (lobbyId : String) (l : Lobby)
    (h : st.activeLobbies.lookup lobbyId = some l) :
    deleteLobby st lobbyId =
      { st with
          redis := rdel (rdel st.redis lobbyId) ("user_lobby:" ++ l.creatorId)
          activeLobbies := mdel st.activeLobbies lobbyId
          userLobbyRequests := mdel st.userLobbyRequests l.creatorId } := by
  simp [deleteLobby, h]

/-- Counterexample to claim C6 as stated: getLobby (and findLobbyByCreator)
on a cache hit whose backing record is missing from the store returns
the cached lobby as authoritative and does not evict the cache entry,
instead of treating the entity as absent. -/
theorem C6_counterexample :
    cacheOnlyState.redis "lobby_6" = none
    ∧ (getLobby cacheOnlyState "lobby_6" 1000).1 = some cacheOnlyLobby
    ∧ (getLobby cacheOnlyState "lobby_6" 1000).2.activeLobbies.lookup
        "lobby_6" = some cacheOnlyLobby
    ∧ (findLobbyByCreator cacheOnlyState "6" 1000).1
        = some cacheOnlyLobby := by
  decide

/-- Claim C6, amended: a cache hit is returned as authoritative without
consulting the store (and without eviction); only on a cache miss does
getLobby consult the store and report a missing backing record as
absent; findLobbyByCreator likewise serves cache hits directly; and
getGameSession is a pure in-memory lookup with no backing store
record at all. -/
theorem C6_cache_read_behaviour (st1 st2 st3 : SysState)
    (id1 id2 c3 gid : String) (now1 now2 now3 : Nat) (l1 : Lobby)
    (pr3 : String × Lobby)
    (h1 : st1.activeLobbies.lookup id1 = some l1)
    (h2a : st2.activeLobbies.lookup id2 = none)
    (h2b : rlive st2.redis now2 id2 = none)
    (h3 : st3.activeLobbies.find? (fun p => p.2.creatorId = c3) = some pr3) :
    getLobby st1 id1 now1 = (some l1, st1)
    ∧ getLobby st2 id2 now2 = (none, st2)
    ∧ findLobbyByCreator st3 c3 now3 = (some pr3.2, st3)
    ∧ getGameSession st1 gid = st1.activeSessions.lookup gid := by
  exact ⟨getLobby_cacheHit st1 id1 now1 l1 h1,
    getLobby_missAbsent st2 id2 now2 h2a h2b,
    findLobbyByCreator_cacheHit st3 c3 now3 pr3 h3, rfl⟩

/-- Witness for the amended C6: the cached lobby_6 is served despite the
empty store; a fully empty state reports absence; the cached lobby is
also served by creator lookup. -/
theorem C6_cache_read_behaviour_witness :
    (cacheOnlyState.activeLobbies.lookup "lobby_6" = some cacheOnlyLobby
      ∧ rlive emptyState.redis 1000 "lobby_x" = none)
    ∧ getLobby cacheOnlyState "lobby_6" 1000 = (some cacheOnlyLobby, cacheOnlyState)
    ∧ getLobby emptyState "lobby_x" 1000 = (none, emptyState)
    ∧ getGameSession cacheOnlyState "g1" = none := by
  have h := C6_cache_read_behaviour cacheOnlyState emptyState cacheOnlyState
    "lobby_6" "lobby_x" "6" "g1" 1000 1000 1000 cacheOnlyLobby
    ("lobby_6", cacheOnlyLobby) (by decide) (by decide) (by decide)
    (by decide)
  exact ⟨⟨by decide, by decide⟩, h.1, h.2.1, by decide⟩

/-- Counterexample to claim C7 as stated: a successful creator lookup
leaves the store untouched — both the primary record and the index keep
their partially consumed expiry (60 000) instead of being refreshed to
the full duration. -/
theorem C7_counterexample :
    (findLobbyByCreator ttlState "9" 10000).1 = some ttlLobby
    ∧ (findLobbyByCreator ttlState "9" 10000).2.redis "lobby_9"
        = some (.lobby ttlLobby, 60000)
    ∧ (findLobbyByCreator ttlState "9" 10000).2.redis "user_lobby:9"
        = some (.str "lobby_9", 60000)
    ∧ ¬(60000 = 10000 + 180000) := by
  decide

/-- Claim C7, amended: findLobbyByCreator is cache-first (a cache hit is
returned without consulting the store), then follows the secondary
index to the primary record; a missing index yields not-found; an index
pointing at a missing primary record is deleted and not-found returned
(self-healing); and a successful store lookup caches and returns the
lobby while leaving the store entirely unchanged — no TTL is refreshed
(the code only checks that the remaining TTL is positive). -/
theorem C7_find_lobby_by_creator (st1 st2 st3 st4 : SysState)
    (c1 c2 c3 c4 lid3 lid4 : String) (now1 now2 now3 now4 : Nat)
    (pr1 : String × Lobby) (l4 : Lobby) (e4 : Nat)
    (h1 : st1.activeLobbies.find? (fun p => p.2.creatorId = c1) = some pr1)
    (h2a : st2.activeLobbies.find? (fun p => p.2.creatorId = c2) = none)
    (h2b : rlive st2.redis now2 ("user_lobby:" ++ c2) = none)
    (h3a : st3.activeLobbies.find? (fun p => p.2.creatorId = c3) = none)
    (h3b : rlive st3.redis now3 ("user_lobby:" ++ c3) = some (.str lid3))
    (h3c : rlive st3.redis now3 lid3 = none)
    (h4a : st4.activeLobbies.find? (fun p => p.2.creatorId = c4) = none)
    (h4b : rlive st4.redis now4 ("user_lobby:" ++ c4) = some (.str lid4))
    (h4c : st4.redis lid4 = some (.lobby l4, e4)) (h4e : now4 < e4) :
    findLobbyByCreator st1 c1 now1 = (some pr1.2, st1)
    ∧ findLobbyByCreator st2 c2 now2 = (none, st2)
    ∧ ((findLobbyByCreator st3 c3 now3).1 = none
      ∧ (findLobbyByCreator st3 c3 now3).2.redis
          = rdel st3.redis ("user_lobby:" ++ c3))
    ∧ ((findLobbyByCreator st4 c4 now4).1 = some l4
      ∧ (findLobbyByCreator st4 c4 now4).2.redis = st4.redis) := by
  have hh3 := findLobbyByCreator_selfHeal st3 c3 lid3 now3 h3a h3b h3c
  have hh4 := findLobbyByCreator_success st4 c4 lid4 now4 l4 e4 h4a h4b
    h4c h4e
  exact ⟨findLobbyByCreator_cacheHit st1 c1 now1 pr1 h1,
    findLobbyByCreator_indexNone st2 c2 now2 h2a h2b,
    ⟨by rw [hh3], by rw [hh3]⟩, ⟨by rw [hh4], by rw [hh4]⟩⟩

/-- Witness for the amended C7: all four paths exercised on concrete
states — cache hit, missing index, stale index healed, and a
successful lookup leaving the store unchanged. -/
theorem C7_find_lobby_by_creator_witness :
    (rlive staleIndexState.redis 1000 ("user_lobby:" ++ "8")
        = some (.str "lobby_8")
      ∧ rlive staleIndexState.redis 1000 "lobby_8" = none
      ∧ ttlState.redis "lobby_9" = some (.lobby ttlLobby, 60000))
    ∧ findLobbyByCreator cacheOnlyState "6" 1000
        = (some cacheOnlyLobby, cacheOnlyState)
    ∧ findLobbyByCreator emptyState "2" 1000 = (none, emptyState)
    ∧ (findLobbyByCreator staleIndexState "8" 1000).1 = none
    ∧ (findLobbyByCreator ttlState "9" 10000).2.redis = ttlState.redis := by
  have h := C7_find_lobby_by_creator cacheOnlyState emptyState
    staleIndexState ttlState "6" "2" "8" "9" "lobby_8" "lobby_9"
    1000 1000 1000 10000 ("lobby_6", cacheOnlyLobby) ttlLobby 60000
    (by decide) (by decide) (by decide) (by decide) (by decide) (by decide)
    (by decide) (by decide) (by decide) (by decide)
  exact ⟨⟨by decide, by decide, by decide⟩, h.1, h.2.1, h.2.2.1.1,
    h.2.2.2.2⟩

/-- Counterexample to claim C8 as stated: deleting a lobby that is absent
from the in-process cache (though fully present in the store) is a
no-op, leaving the creator index key user_lobby:7 dangling and the
rate-limit entry untouched. -/
theorem C8_counterexample :
    redisOnlyState.activeLobbies.lookup "lobby_0" = none
    ∧ deleteLobby redisOnlyState "lobby_0" = redisOnlyState
    ∧ rlive (deleteLobby redisOnlyState "lobby_0").redis 1000 "user_lobby:7"
        = some (.str "lobby_0") := by
  have h := deleteLobby_notCached redisOnlyState "lobby_0" (by decide)
  refine ⟨by decide, h, ?_⟩
  rw [h]
  decide

/-- Claim C8, amended: deleteLobby never errors and is idempotent; when
the lobby is in the in-process cache it removes the primary record, the
creator index and the creator's rate-limit entry and evicts the cache
entry; when the lobby is absent from the cache the call is a no-op,
leaving any store keys (including a dangling creator index) in place. -/
theorem C8_delete_lobby_idempotent (st st' : SysState)
    (lid lid' : String) (l : Lobby)
    (h : st.activeLobbies.lookup lid = some l)
    (h' : st'.activeLobbies.lookup lid' = none) :
    ((deleteLobby st lid).redis lid = none
      ∧ (deleteLobby st lid).redis ("user_lobby:" ++ l.creatorId) = none
      ∧ (deleteLobby st lid).activeLobbies.lookup lid = none
      ∧ (deleteLobby st lid).userLobbyRequests.lookup l.creatorId = none)
    ∧ deleteLobby st' lid' = st'
    ∧ deleteLobby (deleteLobby st lid) lid = deleteLobby st lid
    ∧ deleteLobby (deleteLobby st' lid') lid' = deleteLobby st' lid' := by
  have hc := deleteLobby_cached st lid l h
  have hnc := deleteLobby_notCached st' lid' h'
  have hcacheGone : (deleteLobby st lid).activeLobbies.lookup lid = none := by
    rw [hc]
    exact lookup_mdel_self st.activeLobbies lid
  refine ⟨⟨?_, ?_, hcacheGone, ?_⟩, hnc, ?_, ?_⟩
  · rw [hc]
    show (rdel (rdel st.redis lid) ("user_lobby:" ++ l.creatorId)) lid = none
    by_cases hk : lid = "user_lobby:" ++ l.creatorId
    · rw [hk]
      exact rdel_app_self _ _
    · rw [rdel_app_ne _ _ _ hk]
      exact rdel_app_self _ _
  · rw [hc]
    show (rdel (rdel st.redis lid) ("user_lobby:" ++ l.creatorId))
      ("user_lobby:" ++ l.creatorId) = none
    exact rdel_app_self _ _
  · rw [hc]
    exact lookup_mdel_self st.userLobbyRequests l.creatorId
  · exact deleteLobby_notCached (deleteLobby st lid) lid hcacheGone
  · rw [hnc, hnc]

/-- Witness for the amended C8: deleting the cached lobby_0 of creator 7
removes the record, the index, the cache entry and the rate-limit
entry; a second deletion is a no-op, as is deleting from an empty
cache. -/
theorem C8_delete_lobby_idempotent_witness :
    (cachedLobbyState.activeLobbies.lookup "lobby_0"
        = some ⟨"lobby_0", "7", 10, .active⟩
      ∧ emptyState.activeLobbies.lookup "lobby_x" = none)
    ∧ (deleteLobby cachedLobbyState "lobby_0").redis "lobby_0" = none
    ∧ (deleteLobby cachedLobbyState "lobby_0").redis "user_lobby:7" = none
    ∧ (deleteLobby cachedLobbyState "lobby_0").userLobbyRequests.lookup "7"
        = none
    ∧ deleteLobby (deleteLobby cachedLobbyState "lobby_0") "lobby_0"
        = deleteLobby cachedLobbyState "lobby_0"
    ∧ deleteLobby emptyState "lobby_x" = emptyState := by
  have h := C8_delete_lobby_idempotent cachedLobbyState emptyState "lobby_0"
    "lobby_x" ⟨"lobby_0", "7", 10, .active⟩ (by decide) (by decide)
  exact ⟨⟨by decide, by decide⟩, h.1.1, h.1.2.1, h.1.2.2.2, h.2.2.1, h.2.1⟩

/-- Claim C5 names a code bug: the disconnect path does mark the lobby
pending and start the 30 000 ms timer, but a timely reconnect neither
cancels the timer (clearTimeout is never called and reconnectTimeouts
is never cleared on reconnect) nor restores the lobby to active
(GameService.restoreLobby is defined but never invoked), so when the
timer fires at 30 000 ms the lobby is still pending and is deleted with
the cancellation broadcast emitted — even though the creator
reconnected 10 000 ms after disconnecting.  This theorem evaluates the
embedded handlers on that failing scenario. -/
theorem C5_reconnect_does_not_cancel_grace_timer :
    ((getLobby c5AfterDisconnect "lobby_1" 2000).1
        = some { c5Lobby with status := .pending }
      ∧ c5AfterDisconnect.reconnectTimeouts.lookup "100"
          = some (.lobbyTimer "lobby_1" 32000))
    ∧ c5AfterReconnect.reconnectTimeouts.lookup "100"
        = some (.lobbyTimer "lobby_1" 32000)
    ∧ (getLobby c5AfterReconnect "lobby_1" 12000).1
        = some { c5Lobby with status := .pending }
    ∧ (lobbyTimerFire c5AfterReconnect "100" "lobby_1" 32000).2 = true
    ∧ (lobbyTimerFire c5AfterReconnect "100" "lobby_1" 32000).1.redis
        "lobby_1" = none
    ∧ (lobbyTimerFire c5AfterReconnect "100" "lobby_1" 32000).1.redis
        "user_lobby:100" = none
    ∧ (lobbyTimerFire c5AfterReconnect "100" "lobby_1"
        32000).1.activeLobbies.lookup "lobby_1" = none := by
  decide

end Xoback
